import Mathlib

/-!
Verification of the OBot decision service against its specification.

Shallow embedding of the decision-relevant fragments of `linux_api.py`,
`features.py` and `linux_safety.py`:

* Python floats are modelled as exact rationals (`ℚ`); the Python ints that
  can in principle go negative (the cooldown counter) as `ℤ`.
* The Flask request/response cycle is modelled as a pure function from an
  environment record (the parts of `bot_status`, the parsed request and the
  opaque model output that the decision path reads) and the mutable cooldown
  counter to a response plus the new counter value.
* `requests.get`/JSON decoding is modelled by a `FetchOutcome` value
  describing which of the three outcomes of `fetch_forexfactory_events`
  occurred (non-200 status, raised exception, or a decoded event list).
* Python's stable `list.sort(key=...)` is modelled by `List.insertionSort`,
  which is also a stable sort and therefore produces the same list.
* pandas daily `resample`/`shift(1)`/`dropna`/`reindex(ffill)` over a bar
  series is modelled on lists of bars carrying a calendar-day number and a
  within-day slot; forward-fill onto a bar of day `d` picks the last daily
  row whose (midnight) timestamp is ≤ the bar's timestamp, i.e. the row of
  the greatest day ≤ `d` that survived `dropna`.
-/

namespace OBot

/-! ## News filter module (`linux_api.py`: fetch_forexfactory_events, check_news_risk) -/

/-- News window constants from `linux_api.py`. -/
def LOCKDOWN_MINUTES_BEFORE : ℚ := 30

/-- Lock window after an event, minutes (`LOCKDOWN_MINUTES_AFTER = 15`). -/
def LOCKDOWN_MINUTES_AFTER : ℚ := 15

/-- Warning window before an event, minutes (`WARNING_MINUTES = 120`). -/
def WARNING_MINUTES : ℚ := 120

/-- One entry of the list built by `fetch_forexfactory_events` (the fields the
decision logic reads: `title` and `minutes_until`). -/
structure EconEvent where
  title : String
  minutesUntil : ℚ
  deriving DecidableEq, Repr

/-- Raw calendar entry as decoded from the ForexFactory JSON, before
filtering: `country`, `impact`, `title` and the parsed time difference in
minutes (`none` models a date-parse failure, which the code skips). -/
structure RawEvent where
  country : String
  impact : String
  title : String
  timeDiffMinutes : Option ℚ
  deriving DecidableEq, Repr

/-- Outcome of the HTTP fetch inside `fetch_forexfactory_events`. -/
inductive FetchOutcome where
  | httpError
  | fetchException (msg : String)
  | ok (events : List RawEvent)
  deriving DecidableEq

/-- ASCII case folding of a string to a character list; models Python
`str.lower()` on the ASCII data appearing in the calendar fields. -/
def asciiLower (s : String) : List Char := s.data.map Char.toLower

/-- ASCII upper-casing; models Python `str.upper()`. -/
def asciiUpper (s : String) : List Char := s.data.map Char.toUpper

/-- Containment of `pat` as a contiguous run of `hay`; models the Python
substring test `pat in hay`. -/
def charsContain (hay pat : List Char) : Bool :=
  (List.range (hay.length + 1)).any fun i => decide ((hay.drop i).take pat.length = pat)

/-- The `GOLD_HIGH_IMPACT_EVENTS` list from `linux_api.py`. -/
def goldHighImpactEvents : List String :=
  ["Non-Farm Employment Change", "Nonfarm Payrolls", "Federal Funds Rate",
   "FOMC Statement", "Consumer Price Index", "CPI m/m", "Core CPI m/m", "GDP",
   "Unemployment Rate", "Retail Sales m/m", "Fed Chair Powell Speaks",
   "ISM Manufacturing PMI"]

/-- `any(gold_event.lower() in event_title.lower() for ...)` from
`check_news_risk`. -/
def isGoldSpecific (title : String) : Bool :=
  goldHighImpactEvents.any fun g => charsContain (asciiLower title) (asciiLower g)

/-- Sort key order used by `high_impact_events.sort(key=lambda x:
x[minutes_until])`. -/
def eventLE (a b : EconEvent) : Prop := a.minutesUntil ≤ b.minutesUntil

instance : DecidableRel eventLE := fun a b =>
  inferInstanceAs (Decidable (a.minutesUntil ≤ b.minutesUntil))

instance : IsTotal EconEvent eventLE := ⟨fun a b => le_total a.minutesUntil b.minutesUntil⟩

instance : IsTrans EconEvent eventLE := ⟨fun _ _ _ => le_trans⟩

/-- Python's `list.sort` is a stable ascending sort by the key; a stable sort
produces a unique result, so the structurally recursive `insertionSort`
models it exactly. -/
def sortEventsByTime (l : List EconEvent) : List EconEvent := List.insertionSort eventLE l

/-- The filtering stage of `fetch_forexfactory_events`: keep USD, high-impact
events whose parsed time difference lies in [-60, 1440] minutes. -/
def qualifyingEvents (raws : List RawEvent) : List EconEvent :=
  raws.filterMap fun r =>
    if asciiUpper r.country ≠ "USD".data then none
    else if asciiLower r.impact ≠ "high".data then none
    else
      match r.timeDiffMinutes with
      | none => none
      | some t => if -60 ≤ t ∧ t ≤ 1440 then some ⟨r.title, t⟩ else none

/-- `fetch_forexfactory_events`: returns the sorted qualifying events plus a
status string ("API Error" on a non-200 response, "Error: ..." on an
exception, "OK" otherwise). -/
def fetchForexFactoryEvents (o : FetchOutcome) : List EconEvent × String :=
  match o with
  | .httpError => ([], "API Error")
  | .fetchException m => ([], "Error: " ++ m)
  | .ok raws => (sortEventsByTime (qualifyingEvents raws), "OK")

/-- The 4-tuple returned by `check_news_risk`. -/
structure NewsRisk where
  locked : Bool
  riskMultiplier : ℚ
  message : String
  nextEvent : Option EconEvent

/-- Python `int(...)` truncates toward zero. -/
def pyTruncInt (q : ℚ) : ℤ := Int.tdiv q.num q.den

/-- Rendering of `int(minutes_until)` inside the f-string messages. -/
def minutesStr (m : ℚ) : String := toString (pyTruncInt m)

/-- Rendering of the percentage in the warning message. Python formats with
rounding; we truncate. The difference is cosmetic: no claim inspects this
message. -/
def pctStr (r : ℚ) : String := toString (pyTruncInt (r * 100)) ++ "%"

/-- The warning-zone multiplier of `check_news_risk`: linear interpolation
from 0.3 at 30 minutes to 1.0 at 120 minutes, clamped to [0.3, 1], then
scaled by 0.7 for gold-specific events. The decimal constants 0.3 / 0.7 are
the exact rationals 3/10, 7/10. -/
def warningRiskMult (closest : EconEvent) : ℚ :=
  let riskRaw := 3/10 +
    (closest.minutesUntil - LOCKDOWN_MINUTES_BEFORE) /
      (WARNING_MINUTES - LOCKDOWN_MINUTES_BEFORE) * (7/10)
  let riskClamped := min (max riskRaw (3/10)) 1
  if isGoldSpecific closest.title then riskClamped * (7/10) else riskClamped

/-- The branch cascade of `check_news_risk` applied to `closest = events[0]`. -/
def newsPolicy (closest : EconEvent) : NewsRisk :=
  if closest.minutesUntil < 0 ∧ -LOCKDOWN_MINUTES_AFTER ≤ closest.minutesUntil then
    ⟨true, 0, "🔴 LOCKED: " ++ closest.title ++ " (Just released)", some closest⟩
  else if 0 ≤ closest.minutesUntil ∧ closest.minutesUntil ≤ LOCKDOWN_MINUTES_BEFORE then
    ⟨true, 0, "🔴 LOCKED: " ++ closest.title ++ " in " ++
      minutesStr closest.minutesUntil ++ " min", some closest⟩
  else if LOCKDOWN_MINUTES_BEFORE < closest.minutesUntil ∧
      closest.minutesUntil ≤ WARNING_MINUTES then
    ⟨false, warningRiskMult closest,
      "⚠️ WARNING: " ++ closest.title ++ " in " ++ minutesStr closest.minutesUntil ++
        " min (Risk: " ++ pctStr (warningRiskMult closest) ++ ")", some closest⟩
  else
    ⟨false, 1, "✅ Next: " ++ closest.title ++ " in " ++
      minutesStr closest.minutesUntil ++ " min", some closest⟩

/-- `check_news_risk`. The status string returned by the fetch is bound but
never consulted (exactly as in the source, which destructures
`events, status = fetch_forexfactory_events()` and then only uses `events`);
an empty list yields the no-news default, otherwise the policy cascade runs
on `events[0]`. -/
def checkNewsRisk (o : FetchOutcome) : NewsRisk :=
  match (fetchForexFactoryEvents o).1 with
  | [] => ⟨false, 1, "No high impact news today.", none⟩
  | closest :: _ => newsPolicy closest

/-! ## The predict endpoint (`linux_api.py`: predict) -/

/-- The four actions, in the logits order `["HOLD", "BUY", "SELL", "CLOSE"]`. -/
inductive TradeAction where
  | HOLD | BUY | SELL | CLOSE
  deriving DecidableEq, Repr

/-- The `reason` field of the responses `predict` can build. `MODEL` is the
success reason. (The catch-all exception path, reason "ERROR", is outside
the modelled fragment: no claim mentions it.) -/
inductive HoldReason where
  | STOPPED | NEWS_FILTER | MODEL_NOT_LOADED | SAFETY_HALT
  | BAD_JSON | NO_DATA | FEAT_ERROR | LOW_ATR | MODEL
  deriving DecidableEq, Repr

/-- `MIN_ATR = 1.0`. -/
def MIN_ATR : ℚ := 1

/-- Everything the `predict` handler reads besides the cooldown counter:
the `bot_status` fields consulted by the guards, the parse/emptiness results
for the request, the de-normalized ATR of the last feature row, and the
argmax action of the opaque ONNX policy. `safetyCanTrade = none` models the
absence of a safety monitor (`safety_monitor is None`). -/
structure PredictEnv where
  botStatus : String
  newsLock : Bool
  modelLoaded : Bool
  safetyCanTrade : Option Bool
  jsonParsed : Bool
  m5DataEmpty : Bool
  featuresEmpty : Bool
  atrRaw : ℚ
  modelAction : TradeAction
  deriving DecidableEq, Repr

/-- Action/reason pair of the JSON response. -/
structure PredictResponse where
  action : TradeAction
  reason : HoldReason
  deriving DecidableEq, Repr

/-- The cooldown observation fed to the policy (1.0 = Ready, 0.0 = Busy),
computed from the counter value before the decrement. -/
def cooldownValue (c : ℤ) : ℚ := if 0 < c then 0 else 1

/-- One call of the `predict` handler: response plus the cooldown counter
after the call. Transcribed guard by guard from the source; the sequential
counter mutation (decrement at the cooldown block, then `cooldown_counter =
12` when the action is CLOSE) is flattened into the per-return-path counter
value, which is observationally identical. -/
def predictStep (env : PredictEnv) (cooldown : ℤ) : PredictResponse × ℤ :=
  if env.botStatus ≠ "RUNNING" then (⟨.HOLD, .STOPPED⟩, cooldown)
  else if env.newsLock then (⟨.HOLD, .NEWS_FILTER⟩, cooldown)
  else if env.modelLoaded = false then (⟨.HOLD, .MODEL_NOT_LOADED⟩, cooldown)
  else if env.safetyCanTrade = some false then (⟨.HOLD, .SAFETY_HALT⟩, cooldown)
  else if env.jsonParsed = false then (⟨.HOLD, .BAD_JSON⟩, cooldown)
  else if env.m5DataEmpty then (⟨.HOLD, .NO_DATA⟩, cooldown)
  else if env.featuresEmpty then (⟨.HOLD, .FEAT_ERROR⟩, cooldown)
  else if env.atrRaw < MIN_ATR then
    (⟨.HOLD, .LOW_ATR⟩, if 0 < cooldown then cooldown - 1 else cooldown)
  else if env.modelAction = .CLOSE then (⟨env.modelAction, .MODEL⟩, 12)
  else (⟨env.modelAction, .MODEL⟩, if 0 < cooldown then cooldown - 1 else cooldown)

/-- Iterated decision calls under a fixed environment. -/
def predictIter (env : PredictEnv) (c : ℤ) : ℕ → ℤ
  | 0 => c
  | n + 1 => (predictStep env (predictIter env c n)).2

/-- The conditions under which a `predict` call reaches the model-inference
path (every guard passes and the ATR floor is met). -/
def onModelPath (env : PredictEnv) : Prop :=
  env.botStatus = "RUNNING" ∧ env.newsLock = false ∧ env.modelLoaded = true ∧
  env.safetyCanTrade ≠ some false ∧ env.jsonParsed = true ∧
  env.m5DataEmpty = false ∧ env.featuresEmpty = false ∧ MIN_ATR ≤ env.atrRaw

/-! ## Multi-timeframe gating (`linux_api.py` request parsing and
`features.py`: _compute_mtf_features)

The request parser turns `h1_data`/`h4_data`/`d1_data` into data frames only
when the lists are long enough; `_compute_mtf_features` initializes every
MTF column to 0.0 and overwrites a timeframe's columns only when its frame
is present and has more than 200 rows. Only the series lengths decide which
branch runs, so the gates are modelled over lengths, with the per-timeframe
numeric computation (`_compute_single_tf_features`) kept as an opaque value
supplied by the theorem statements. -/

/-- `if h1_data and len(h1_data) > 200` in `predict` (truthiness of the list
is subsumed by the length bound). -/
def apiForwardsH1 (n : ℕ) : Option ℕ := if 200 < n then some n else none

/-- `if h4_data and len(h4_data) > 50` in `predict`. -/
def apiForwardsH4 (n : ℕ) : Option ℕ := if 50 < n then some n else none

/-- `if d1_data and len(d1_data) > 30` in `predict`. -/
def apiForwardsD1 (n : ℕ) : Option ℕ := if 30 < n then some n else none

/-- The branch condition `df is not None and len(df) > 200` used by
`_compute_mtf_features` for each of H1, H4 and D1. -/
def mtfComputeGate : Option ℕ → Bool
  | some n => decide (200 < n)
  | none => false

/-- Value of one timeframe's MTF output column: the column is initialized to
0.0 and overwritten with the computed series only when the timeframe's gate
passes. `computed` stands for the corresponding `_compute_single_tf_features`
output, which the gating claims treat as opaque. -/
def mtfFeatureColumn (forwarded : Option ℕ) (computed : ℕ → ℚ) : ℚ :=
  match forwarded with
  | some n => if 200 < n then computed n else 0
  | none => 0

/-! ## Daily pivot and Fibonacci levels (`features.py`: compute_features,
_compute_support_resistance)

A bar carries its calendar-day number, a within-day slot (bars are listed in
chronological order, as the sorted data-frame index guarantees), and the
OHLC fields the daily aggregations read. -/

/-- One base-timeframe bar. -/
structure PriceBar where
  day : ℕ
  slot : ℕ
  high : ℚ
  low : ℚ
  close : ℚ
  deriving DecidableEq, Repr

/-- The bars of calendar day `d`, in order. -/
def barsOfDay (bars : List PriceBar) (d : ℕ) : List PriceBar :=
  bars.filter fun b => b.day = d

/-- `df.resample('D').agg(high max, low min, close last)` at day `d`:
`none` models the all-NaN row of a day with no bars (dropped by `dropna`). -/
def dailyAgg (bars : List PriceBar) (d : ℕ) : Option (ℚ × ℚ × ℚ) :=
  match barsOfDay bars d with
  | [] => none
  | b :: bs =>
    some ((bs.map PriceBar.high).foldl max b.high,
          (bs.map PriceBar.low).foldl min b.low,
          (((b :: bs).getLast?).getD b).close)

/-- After `shift(1)` and `dropna()`, the daily frame has a row at day `E`
exactly when `E ≥ 1` and day `E - 1` had bars. -/
def hasPivotRow (bars : List PriceBar) (E : ℕ) : Prop :=
  1 ≤ E ∧ (dailyAgg bars (E - 1)).isSome = true

instance (bars : List PriceBar) : DecidablePred (hasPivotRow bars) := fun E =>
  inferInstanceAs (Decidable (1 ≤ E ∧ (dailyAgg bars (E - 1)).isSome = true))

/-- `reindex(df.index, method='ffill')` on the shifted daily frame: a bar of
day `D` receives the row of the greatest day `E ≤ D` that survived `dropna`
(daily rows are stamped at midnight, hence ≤ every bar of their day). -/
def pivotRowDay (bars : List PriceBar) (D : ℕ) : ℕ :=
  Nat.findGreatest (hasPivotRow bars) D

/-- The `(Pivot, R1, S1)` values forward-filled onto the bars of day `D`
(`none` models the NaN rows before the first pivot row exists, which the
final `dropna` removes from the feature frame). -/
def pivotLevelsAt (bars : List PriceBar) (D : ℕ) : Option (ℚ × ℚ × ℚ) :=
  if hasPivotRow bars (pivotRowDay bars D) then
    match dailyAgg bars (pivotRowDay bars D - 1) with
    | some (hi, lo, cl) =>
      let P := (hi + lo + cl) / 3
      some (P, 2 * P - lo, 2 * P - hi)
    | none => none
  else none

/-- `_compute_support_resistance` daily Fibonacci rows: the resample is NOT
shifted, so day `d`'s row aggregates the whole of day `d`. -/
def dailyFibLevels (bars : List PriceBar) (d : ℕ) : Option (ℚ × ℚ) :=
  match dailyAgg bars d with
  | some (hi, lo, _) =>
    some (lo + (hi - lo) * (382/1000), lo + (hi - lo) * (618/1000))
  | none => none

/-- The `(fib_382, fib_618)` pair forward-filled onto bar index `i`: the bar
belongs to its own day, whose (midnight-stamped) row therefore exists and is
the one picked by `ffill`. -/
def fibLevelsAppliedAt (bars : List PriceBar) (i : ℕ) : Option (ℚ × ℚ) :=
  match bars[i]? with
  | some b => dailyFibLevels bars b.day
  | none => none

/-- Modelled from the spec: the Fibonacci levels at bar `i` computed from the
current day's RUNNING high/low, i.e. only from the day's bars up to and
including index `i`. Used solely to compare the code's behaviour with the
spec sentence; the code itself is `fibLevelsAppliedAt`. -/
def runningFibLevelsSpec (bars : List PriceBar) (i : ℕ) : Option (ℚ × ℚ) :=
  match bars[i]? with
  | some b => dailyFibLevels (bars.take (i + 1)) b.day
  | none => none

/-! ## Safety monitor (`linux_safety.py`: TradingSafetyMonitor)

The monitor is modelled for single-session histories: every update happens
"today" (`datetime.now()` timestamps), so the daily filter in
`_check_daily_loss` keeps the whole trade log. Alerts are modelled by a
count; only their number, never their content, feeds back into behaviour. -/

structure SafetyMonitor where
  maxDailyLossPct : ℚ
  maxDrawdownPct : ℚ
  equityCurve : List ℚ
  tradeLog : List ℚ
  tradingEnabled : Bool
  alertCount : ℕ

/-- `TradingSafetyMonitor.__init__`. -/
def initMonitor (maxDailyLossPct maxDrawdownPct : ℚ) : SafetyMonitor :=
  ⟨maxDailyLossPct, maxDrawdownPct, [], [], true, 0⟩

/-- Last recorded equity (`equity_series.iloc[-1]`); 0 for the empty curve,
which the callers guard against. -/
def lastEquity (eq : List ℚ) : ℚ := (eq.getLast?).getD 0

/-- Last value of `equity_series.expanding().max()`, i.e. the maximum of the
whole curve. -/
def runMaxLast (eq : List ℚ) : ℚ :=
  match eq with
  | [] => 0
  | e :: es => es.foldl max e

/-- `drawdown.iloc[-1]` of `_check_drawdown`:
`(equity - running_max) / running_max * 100` at the last point. -/
def currentDrawdownPct (eq : List ℚ) : ℚ :=
  (lastEquity eq - runMaxLast eq) / runMaxLast eq * 100

/-- `_check_daily_loss`: with all trades dated today, `today_trades` is the
whole log; no trades means an early return. -/
def checkDailyLoss (m : SafetyMonitor) : SafetyMonitor :=
  if m.tradeLog = [] then m
  else
    let dailyPnl := m.tradeLog.sum
    let initialBalance := (m.equityCurve.head?).getD 1000
    if dailyPnl / initialBalance * 100 < -m.maxDailyLossPct then
      { m with tradingEnabled := false, alertCount := m.alertCount + 1 }
    else m

/-- `_check_drawdown`. -/
def checkDrawdown (m : SafetyMonitor) : SafetyMonitor :=
  if m.equityCurve.length < 2 then m
  else if currentDrawdownPct m.equityCurve < -m.maxDrawdownPct then
    { m with tradingEnabled := false, alertCount := m.alertCount + 1 }
  else m

/-- `_check_performance_degradation`: advisory only, never touches
`trading_enabled`. -/
def checkPerfDegradation (m : SafetyMonitor) : SafetyMonitor :=
  if m.tradeLog.length < 50 then m
  else
    let recent20 := m.tradeLog.drop (m.tradeLog.length - 20)
    let previous30 := (m.tradeLog.drop (m.tradeLog.length - 50)).take 30
    let recentAvg := recent20.sum / 20
    let previousAvg := previous30.sum / 30
    if 0 < previousAvg ∧ recentAvg < previousAvg * (1/2) then
      { m with alertCount := m.alertCount + 1 }
    else m

/-- `TradingSafetyMonitor.update`: append to the curves, then run the three
checks in source order. -/
def updateMonitor (m : SafetyMonitor) (currentEquity : ℚ) (tradePnl : Option ℚ) :
    SafetyMonitor :=
  checkPerfDegradation (checkDrawdown (checkDailyLoss
    { m with equityCurve := m.equityCurve ++ [currentEquity],
             tradeLog := m.tradeLog ++ tradePnl.toList }))

/-- `can_trade()`. -/
def canTrade (m : SafetyMonitor) : Bool := m.tradingEnabled

/-- A sequence of equity-only updates (the EA posting `equity` with no
realized trade PnL). -/
def runEquityUpdates (m : SafetyMonitor) (eqs : List ℚ) : SafetyMonitor :=
  eqs.foldl (fun acc e => updateMonitor acc e none) m

/-! ## Concrete inputs used by counterexamples and witnesses -/

/-- Two qualifying USD high-impact events: one 50 minutes in the past (inside
the -60 fetch window but outside the 15-minute post-event lock window) and
one 10 minutes ahead (inside the 30-minute pre-event lock window). -/
def newsRawsC1 : List RawEvent :=
  [⟨"USD", "High", "Fed Minutes Release", some (-50)⟩,
   ⟨"USD", "High", "CPI m/m", some 10⟩]

/-- A single qualifying event 10 minutes ahead. -/
def newsRawsImminent : List RawEvent := [⟨"USD", "High", "FOMC Statement", some 10⟩]

/-- A single qualifying event 5 minutes ahead (lock zone). -/
def newsRawsLocked : List RawEvent := [⟨"USD", "High", "GDP", some 5⟩]

/-- Status RUNNING, no news lock, model NOT loaded, safety monitor halted. -/
def envModelMissingSafetyHalted : PredictEnv :=
  ⟨"RUNNING", false, false, some false, true, false, false, 2, .HOLD⟩

/-- Status RUNNING, model loaded, safety monitor halted. -/
def envSafetyHalted : PredictEnv :=
  ⟨"RUNNING", false, true, some false, true, false, false, 2, .HOLD⟩

/-- A fully passing environment whose model action is CLOSE. -/
def envCloseAction : PredictEnv :=
  ⟨"RUNNING", false, true, some true, true, false, false, 2, .CLOSE⟩

/-- A fully passing environment whose model action is HOLD. -/
def envHoldAction : PredictEnv :=
  ⟨"RUNNING", false, true, some true, true, false, false, 2, .HOLD⟩

/-- A request whose de-normalized ATR (0) is below the floor (1). -/
def envLowAtr : PredictEnv :=
  ⟨"RUNNING", false, true, some true, true, false, false, 0, .HOLD⟩

/-- A request received while the bot status is STOPPED. -/
def envStopped : PredictEnv :=
  ⟨"STOPPED", false, true, some true, true, false, false, 2, .HOLD⟩

/-- Two days of bars: day 0 aggregates to high 10, low 5, close 7. -/
def barsTwoDays : List PriceBar := [⟨0, 0, 10, 5, 7⟩, ⟨1, 0, 12, 6, 9⟩]

/-- One day with two bars; the later bar carries the day's high (20). -/
def barsDayHighLate : List PriceBar := [⟨0, 0, 10, 5, 7⟩, ⟨0, 1, 20, 5, 8⟩]

/-- Same first bar as `barsDayHighLate` but a different later bar (high 30). -/
def barsDayHighLater : List PriceBar := [⟨0, 0, 10, 5, 7⟩, ⟨0, 1, 30, 5, 8⟩]

/-! ## Claim C2 — guard order of the predict endpoint -/

/-- Claim C2 counterexample: with status RUNNING, no news lock, the model not
loaded AND the safety monitor halted, the response reason is
MODEL_NOT_LOADED, not SAFETY_HALT as the claim requires: the model-loaded
guard runs before the safety guard. -/
theorem predict_guard_order_counterexample :
    (predictStep envModelMissingSafetyHalted 0).1.reason = HoldReason.MODEL_NOT_LOADED ∧
    HoldReason.MODEL_NOT_LOADED ≠ HoldReason.SAFETY_HALT := by
  constructor
  · rfl
  · decide

set_option maxHeartbeats 1000000 in
/-- Claim C2 amended: the guards are applied in the order status ≠ RUNNING →
STOPPED, news locked → NEWS_FILTER, model not loaded → MODEL_NOT_LOADED,
safety halted → SAFETY_HALT; so MODEL_NOT_LOADED is the reason exactly when
the first two guards pass and the model is not loaded, and SAFETY_HALT is
the reason exactly when the first three guards pass and the monitor reports
it cannot trade. In particular a not-loaded model masks a safety halt. -/
theorem predict_guard_order (env : PredictEnv) (c : ℤ) :
    ((predictStep env c).1.reason = HoldReason.MODEL_NOT_LOADED ↔
      env.botStatus = "RUNNING" ∧ env.newsLock = false ∧ env.modelLoaded = false) ∧
    ((predictStep env c).1.reason = HoldReason.SAFETY_HALT ↔
      env.botStatus = "RUNNING" ∧ env.newsLock = false ∧ env.modelLoaded = true ∧
        env.safetyCanTrade = some false) := by
  unfold predictStep
  split_ifs <;> simp_all

/-- Witness for `predict_guard_order` at a concrete halted-monitor input. -/
theorem predict_guard_order_witness :
    (predictStep envSafetyHalted 3).1.reason = HoldReason.SAFETY_HALT :=
  (predict_guard_order envSafetyHalted 3).2.mpr ⟨rfl, rfl, rfl, rfl⟩

/-! ## Claim C4 — multi-timeframe minimum bar counts -/

/-- Claim C4 counterexample: a D1 series of 100 bars passes the API gate
(100 > 30) but `_compute_mtf_features` requires more than 200 bars, so the
D1 output columns keep the neutral default 0 instead of the computed value
(here 1). -/
theorem mtf_d1_threshold_counterexample :
    mtfComputeGate (apiForwardsD1 100) = false ∧
    mtfFeatureColumn (apiForwardsD1 100) (fun _ => 1) = 0 ∧
    (1 : ℚ) ≠ 0 := by
  refine ⟨rfl, rfl, by norm_num⟩

/-- Claim C4 amended: every higher timeframe is effectively gated at more
than 200 bars. The API layer forwards H1 above 200, H4 above 50 and D1 above
30 bars, but `_compute_mtf_features` recomputes a timeframe's columns only
above 200 bars, so the effective threshold of each timeframe, D1 included,
is 200, and a 100-bar D1 series keeps the neutral default. -/
theorem mtf_effective_thresholds (n : ℕ) :
    mtfComputeGate (apiForwardsH1 n) = decide (200 < n) ∧
    mtfComputeGate (apiForwardsH4 n) = decide (200 < n) ∧
    mtfComputeGate (apiForwardsD1 n) = decide (200 < n) := by
  unfold mtfComputeGate apiForwardsH1 apiForwardsH4 apiForwardsD1
  refine ⟨?_, ?_, ?_⟩ <;> split_ifs <;> simp <;> omega

/-! ## Claim C5 — fetch failure handling of the news risk check -/

/-- Claim C5 counterexample: on an HTTP error the check does default to the
clear state (not locked, multiplier 1), but its message is literally the
no-upcoming-events message: `check_news_risk` discards the status string of
the fetch, so a failure is indistinguishable from a quiet calendar. -/
theorem news_fetch_failure_message_counterexample :
    (checkNewsRisk FetchOutcome.httpError).locked = false ∧
    (checkNewsRisk FetchOutcome.httpError).riskMultiplier = 1 ∧
    (checkNewsRisk FetchOutcome.httpError).message =
      (checkNewsRisk (FetchOutcome.ok [])).message := by
  exact ⟨rfl, rfl, rfl⟩

/-- Claim C5 amended: a fetch failure (HTTP error or exception) defaults to
the clear state — not locked, risk multiplier 1 — but surfaces the generic
"No high impact news today." message: the error status built by
`fetch_forexfactory_events` is never propagated by `check_news_risk`. -/
theorem news_fetch_failure_defaults_clear (m : String) :
    checkNewsRisk FetchOutcome.httpError =
      ⟨false, 1, "No high impact news today.", none⟩ ∧
    checkNewsRisk (FetchOutcome.fetchException m) =
      ⟨false, 1, "No high impact news today.", none⟩ ∧
    (fetchForexFactoryEvents FetchOutcome.httpError).2 = "API Error" ∧
    (fetchForexFactoryEvents (FetchOutcome.fetchException m)).2 = "Error: " ++ m := by
  exact ⟨rfl, rfl, rfl, rfl⟩

/-! ## Claim C10 — cooldown frame effect of the predict endpoint -/

set_option maxHeartbeats 1000000 in
/-- Claim C10: a LOW_ATR response is produced after the cooldown block ran
(the counter was decremented when positive), while the guard rejections
STOPPED, NEWS_FILTER, MODEL_NOT_LOADED, SAFETY_HALT, BAD_JSON, NO_DATA and
FEAT_ERROR all return before the cooldown block and leave the counter
unchanged. -/
theorem predict_cooldown_frame_effect (env : PredictEnv) (c : ℤ) :
    ((predictStep env c).1.reason = HoldReason.LOW_ATR →
      (predictStep env c).2 = if 0 < c then c - 1 else c) ∧
    (((predictStep env c).1.reason = HoldReason.STOPPED ∨
      (predictStep env c).1.reason = HoldReason.NEWS_FILTER ∨
      (predictStep env c).1.reason = HoldReason.MODEL_NOT_LOADED ∨
      (predictStep env c).1.reason = HoldReason.SAFETY_HALT ∨
      (predictStep env c).1.reason = HoldReason.BAD_JSON ∨
      (predictStep env c).1.reason = HoldReason.NO_DATA ∨
      (predictStep env c).1.reason = HoldReason.FEAT_ERROR) →
      (predictStep env c).2 = c) := by
  unfold predictStep
  split_ifs <;> simp_all

/-- Witness for `predict_cooldown_frame_effect`: a LOW_ATR call decrements
the counter from 5 to 4, while a STOPPED call leaves it at 5. -/
theorem predict_cooldown_frame_effect_witness :
    (predictStep envLowAtr 5).2 = (if (0 : ℤ) < 5 then 5 - 1 else 5) ∧
    (predictStep envStopped 5).2 = 5 := by
  refine ⟨(predict_cooldown_frame_effect envLowAtr 5).1 (by decide), ?_⟩
  exact (predict_cooldown_frame_effect envStopped 5).2 (Or.inl (by decide))

/-! ## Claim C3 — the cooldown counter -/

/-- On the model-inference path the call returns the policy action with
reason MODEL, and the counter becomes 12 on CLOSE and is otherwise
decremented when positive. Shared helper for the cooldown claims. -/
theorem predictStep_model_path (env : PredictEnv) (c : ℤ) (h : onModelPath env) :
    predictStep env c =
      (⟨env.modelAction, HoldReason.MODEL⟩,
        if env.modelAction = TradeAction.CLOSE then 12
        else if 0 < c then c - 1 else c) := by
  obtain ⟨h1, h2, h3, h4, h5, h6, h7, h8⟩ := h
  unfold predictStep
  rw [if_neg (by simp [h1]), if_neg (by simp [h2]), if_neg (by simp [h3]),
    if_neg h4, if_neg (by simp [h5]), if_neg (by simp [h6]), if_neg (by simp [h7]),
    if_neg (not_lt.mpr h8)]
  split_ifs <;> simp_all

/-- Claim C3 counterexample: in the Busy state (counter 5) a decision call
whose final action is CLOSE sets the counter to 12 instead of decrementing
it to 4 — a Busy→Busy(12) transition the claimed two-state machine
("decremented by 1 on every decision call", "no other transitions exist")
does not allow. -/
theorem cooldown_busy_close_counterexample :
    (predictStep envCloseAction 5).2 = 12 ∧ (predictStep envCloseAction 5).2 ≠ 4 := by
  constructor
  · rfl
  · decide

/-- Claim C3 amended: on each decision call that reaches the cooldown block,
a final CLOSE action sets the counter to 12 from ANY state (re-arming it
even when already Busy); otherwise a positive counter is decremented by 1
and a zero counter stays 0, so the counter never goes negative; the
cooldown observation is 1 when the counter is 0 and 0 when it is positive;
and after a CLOSE, 12 consecutive non-CLOSE decision calls bring the
counter from 12 back to 0 and no fewer do. -/
theorem cooldown_state_machine (env : PredictEnv) (c : ℤ) (n : ℕ)
    (h : onModelPath env) :
    (env.modelAction = TradeAction.CLOSE → (predictStep env c).2 = 12) ∧
    (env.modelAction ≠ TradeAction.CLOSE →
      (predictStep env c).2 = if 0 < c then c - 1 else c) ∧
    (0 ≤ c → 0 ≤ (predictStep env c).2) ∧
    (cooldownValue 0 = 1 ∧ (0 < c → cooldownValue c = 0)) ∧
    (env.modelAction ≠ TradeAction.CLOSE → n ≤ 12 →
      predictIter env 12 n = 12 - (n : ℤ)) := by
  refine ⟨?_, ?_, ?_, ?_, ?_⟩
  · intro hc
    rw [predictStep_model_path env c h, if_pos hc]
  · intro hc
    rw [predictStep_model_path env c h, if_neg hc]
  · intro hc
    rw [predictStep_model_path env c h]
    split_ifs <;> omega
  · exact ⟨by simp [cooldownValue], fun hc => by simp [cooldownValue, hc]⟩
  · intro hc hn
    induction n with
    | zero => simp [predictIter]
    | succ k ih =>
      have hk : k ≤ 12 := by omega
      have hiter : predictIter env 12 k = 12 - (k : ℤ) := ih hk
      show (predictStep env (predictIter env 12 k)).2 = 12 - ((k : ℤ) + 1)
      rw [hiter, predictStep_model_path env _ h, if_neg hc, if_pos (by omega)]
      push_cast
      ring

/-- Witness for `cooldown_state_machine`: from counter 5 a non-CLOSE call
decrements to 4; the counter stays nonnegative; the Ready observation is 1;
and 12 non-CLOSE calls after a CLOSE return the counter from 12 to 0. -/
theorem cooldown_state_machine_witness :
    (predictStep envHoldAction 5).2 = (if (0 : ℤ) < 5 then 5 - 1 else 5) ∧
    (0 : ℤ) ≤ (predictStep envHoldAction 5).2 ∧
    predictIter envHoldAction 12 12 = 12 - ((12 : ℕ) : ℤ) := by
  have h := cooldown_state_machine envHoldAction 5 12
    ⟨rfl, rfl, rfl, by decide, rfl, rfl, rfl, by decide⟩
  exact ⟨h.2.1 (by decide), h.2.2.1 (by decide), h.2.2.2.2 (by decide) (by decide)⟩

/-! ## Claim C1 — which event the news policy is evaluated against -/

/-- The head of the sorted qualifying-event list carries the least
`minutes_until` of the list. Shared helper. -/
theorem sortEventsByTime_head_min (l : List EconEvent) (c : EconEvent)
    (rest : List EconEvent) (hs : sortEventsByTime l = c :: rest) :
    ∀ x ∈ l, c.minutesUntil ≤ x.minutesUntil := by
  intro x hx
  have hs2 : List.insertionSort eventLE l = c :: rest := hs
  have hperm := List.perm_insertionSort eventLE l
  have hx2 : x ∈ c :: rest := by rw [← hs2]; exact hperm.mem_iff.mpr hx
  have hsorted : List.Sorted eventLE (c :: rest) := by
    rw [← hs2]; exact List.sorted_insertionSort eventLE l
  rcases List.mem_cons.mp hx2 with h1 | h1
  · exact le_of_eq (by rw [h1])
  · exact List.rel_of_sorted_cons hsorted x h1

/-- When the fetch yields a non-empty sorted event list, `check_news_risk`
is the policy cascade applied to its head. Shared helper. -/
theorem checkNewsRisk_eval_head (o : FetchOutcome) (c : EconEvent)
    (rest : List EconEvent) (hs : (fetchForexFactoryEvents o).1 = c :: rest) :
    checkNewsRisk o = newsPolicy c := by
  unfold checkNewsRisk
  rw [hs]

/-- Claim C1 counterexample: with a qualifying event 10 minutes ahead (inside
[0, 30]) but another qualifying event 50 minutes in the past, the check is
not locked and keeps multiplier 1: sorting ascending by `minutes_until` puts
the most-past event first, so `events[0]` is the chronologically earliest
qualifying event — not the event closest to now — and here it falls in no
lock window. -/
theorem news_risk_nearest_event_counterexample :
    (∃ e ∈ qualifyingEvents newsRawsC1, 0 ≤ e.minutesUntil ∧ e.minutesUntil ≤ 30) ∧
    (checkNewsRisk (FetchOutcome.ok newsRawsC1)).locked = false ∧
    (checkNewsRisk (FetchOutcome.ok newsRawsC1)).riskMultiplier = 1 := by
  refine ⟨⟨⟨"CPI m/m", 10⟩, by decide, by decide, by decide⟩, ?_, ?_⟩ <;> rfl

/-- Claim C1 amended: the policy is evaluated against the event with the
least `minutes_until` (the chronologically earliest qualifying event, which
may lie in the past); whenever THAT event has `minutes_until` in [0, 30],
the result is locked with risk multiplier 0. -/
theorem news_risk_locks_on_earliest_event (raws : List RawEvent) (e : EconEvent)
    (hmem : e ∈ qualifyingEvents raws)
    (hmin : ∀ x ∈ qualifyingEvents raws, e.minutesUntil ≤ x.minutesUntil)
    (h0 : 0 ≤ e.minutesUntil) (h30 : e.minutesUntil ≤ 30) :
    (checkNewsRisk (FetchOutcome.ok raws)).locked = true ∧
    (checkNewsRisk (FetchOutcome.ok raws)).riskMultiplier = 0 := by
  cases hs : sortEventsByTime (qualifyingEvents raws) with
  | nil =>
    exfalso
    have hs2 : List.insertionSort eventLE (qualifyingEvents raws) = [] := hs
    have hperm := List.perm_insertionSort eventLE (qualifyingEvents raws)
    have : e ∈ List.insertionSort eventLE (qualifyingEvents raws) :=
      hperm.mem_iff.mpr hmem
    rw [hs2] at this
    simp at this
  | cons c rest =>
    have hcmem : c ∈ qualifyingEvents raws := by
      have hperm := List.perm_insertionSort eventLE (qualifyingEvents raws)
      have hc : c ∈ List.insertionSort eventLE (qualifyingEvents raws) := by
        have hs2 : List.insertionSort eventLE (qualifyingEvents raws) = c :: rest := hs
        rw [hs2]
        exact List.mem_cons_self c rest
      exact hperm.mem_iff.mp hc
    have hle : c.minutesUntil ≤ e.minutesUntil :=
      sortEventsByTime_head_min (qualifyingEvents raws) c rest hs e hmem
    have h0c : 0 ≤ c.minutesUntil := le_trans h0 (hmin c hcmem)
    have h30c : c.minutesUntil ≤ 30 := hle.trans h30
    have hres : checkNewsRisk (FetchOutcome.ok raws) = newsPolicy c :=
      checkNewsRisk_eval_head _ c rest hs
    rw [hres]
    unfold newsPolicy
    rw [if_neg (by rintro ⟨hneg, -⟩; exact absurd h0c (not_le.mpr hneg)),
      if_pos ⟨h0c, by simpa [LOCKDOWN_MINUTES_BEFORE] using h30c⟩]
    exact ⟨rfl, rfl⟩

/-- Witness for `news_risk_locks_on_earliest_event`: a single qualifying
event 10 minutes ahead locks trading with multiplier 0. -/
theorem news_risk_locks_on_earliest_event_witness :
    (checkNewsRisk (FetchOutcome.ok newsRawsImminent)).locked = true ∧
    (checkNewsRisk (FetchOutcome.ok newsRawsImminent)).riskMultiplier = 0 :=
  news_risk_locks_on_earliest_event newsRawsImminent ⟨"FOMC Statement", 10⟩
    (by decide) (by decide) (by decide) (by decide)

/-! ## Claim C6 — bounds of the news risk multiplier -/

/-- Bounds of the warning-zone multiplier. Shared helper. -/
theorem warningRiskMult_bounds (c : EconEvent) :
    0 ≤ warningRiskMult c ∧ warningRiskMult c ≤ 1 := by
  unfold warningRiskMult
  have h1 : min (max (3/10 +
      (c.minutesUntil - LOCKDOWN_MINUTES_BEFORE) /
        (WARNING_MINUTES - LOCKDOWN_MINUTES_BEFORE) * (7/10)) (3/10)) 1 ≤ 1 :=
    min_le_right _ _
  have h2 : (3:ℚ)/10 ≤ min (max (3/10 +
      (c.minutesUntil - LOCKDOWN_MINUTES_BEFORE) /
        (WARNING_MINUTES - LOCKDOWN_MINUTES_BEFORE) * (7/10)) (3/10)) 1 :=
    le_min (le_max_right _ _) (by norm_num)
  split_ifs <;> constructor <;> nlinarith

/-- Claim C6: for every fetch outcome — hence every input event list — the
risk multiplier returned by `check_news_risk` lies in [0, 1], and a locked
result always carries multiplier 0. -/
theorem news_risk_multiplier_invariant (o : FetchOutcome) :
    0 ≤ (checkNewsRisk o).riskMultiplier ∧ (checkNewsRisk o).riskMultiplier ≤ 1 ∧
    ((checkNewsRisk o).locked = true → (checkNewsRisk o).riskMultiplier = 0) := by
  cases hs : (fetchForexFactoryEvents o).1 with
  | nil =>
    have hres : checkNewsRisk o = ⟨false, 1, "No high impact news today.", none⟩ := by
      unfold checkNewsRisk
      rw [hs]
    rw [hres]
    refine ⟨by norm_num, by norm_num, by simp⟩
  | cons c rest =>
    rw [checkNewsRisk_eval_head o c rest hs]
    unfold newsPolicy
    have hb := warningRiskMult_bounds c
    split_ifs <;>
      refine ⟨by norm_num [hb.1], by norm_num [hb.2], by simp⟩

/-- Witness for `news_risk_multiplier_invariant`: the locked result of a
concrete imminent event indeed has multiplier 0. -/
theorem news_risk_multiplier_invariant_witness :
    (checkNewsRisk (FetchOutcome.ok newsRawsLocked)).riskMultiplier = 0 :=
  (news_risk_multiplier_invariant (FetchOutcome.ok newsRawsLocked)).2.2 (by decide)

/-! ## Claim C7 — pivot levels come from the previous day -/

/-- Claim C7: the Pivot/R1/S1 levels forward-filled onto day `D`'s bars are
exactly `Pivot = (H+L+C)/3`, `R1 = 2·Pivot−L`, `S1 = 2·Pivot−H` computed
from day `D−1`'s aggregated high/low/close. The daily frame is aggregated,
shifted by one row and only then forward-filled, so (as the conclusion's
dependence on `dailyAgg bars (D−1)` alone shows) no bar of day `D` enters
the levels applied to day `D` — the strict no-lookahead rule holds. -/
theorem pivot_levels_from_prev_day (bars : List PriceBar) (D : ℕ) (hi lo cl : ℚ)
    (hD : 1 ≤ D) (hAgg : dailyAgg bars (D - 1) = some (hi, lo, cl)) :
    pivotLevelsAt bars D =
      some ((hi + lo + cl) / 3, 2 * ((hi + lo + cl) / 3) - lo,
        2 * ((hi + lo + cl) / 3) - hi) := by
  have hP : hasPivotRow bars D := ⟨hD, by rw [hAgg]; rfl⟩
  have hfind : pivotRowDay bars D = D := by
    unfold pivotRowDay
    rcases D with _ | n
    · omega
    · rw [Nat.findGreatest_succ]
      rw [if_pos hP]
  unfold pivotLevelsAt
  rw [hfind, if_pos hP, hAgg]

/-- Witness for `pivot_levels_from_prev_day` on a concrete two-day series:
day 1's levels come from day 0's high 10, low 5, close 7. -/
theorem pivot_levels_from_prev_day_witness :
    pivotLevelsAt barsTwoDays 1 =
      some ((10 + 5 + 7) / 3, 2 * ((10 + 5 + 7) / 3) - 5,
        2 * ((10 + 5 + 7) / 3) - 10) :=
  pivot_levels_from_prev_day barsTwoDays 1 10 5 7 (by decide) (by decide)

/-! ## Claim C9 — daily Fibonacci levels look ahead within the day -/

/-- Claim C9 counterexample: the Fibonacci levels applied at the first bar of
a day differ from the running-value levels the claim prescribes, and they
change when a LATER bar of the same day changes — the daily resample is not
shifted, so day `d`'s full-day high/low reaches every bar of day `d`,
including bars before the extreme was made. -/
theorem fib_running_value_counterexample :
    fibLevelsAppliedAt barsDayHighLate 0 ≠ runningFibLevelsSpec barsDayHighLate 0 ∧
    fibLevelsAppliedAt barsDayHighLate 0 ≠ fibLevelsAppliedAt barsDayHighLater 0 := by
  constructor <;>
  · simp only [fibLevelsAppliedAt, runningFibLevelsSpec, dailyFibLevels, dailyAgg,
      barsOfDay, barsDayHighLate, barsDayHighLater]
    norm_num

/-- Claim C9 amended: the Fibonacci levels applied at any bar are computed
from the bar's day's ENTIRE-day high/low aggregate: `fib_382 = L + (H−L)·0.382`
and `fib_618 = L + (H−L)·0.618` with `H`/`L` the full-day extremes, which at
bars earlier than the day's extremes uses same-day future bars (an
intra-day lookahead, contrary to the running-value reading). -/
theorem fib_levels_full_day (bars : List PriceBar) (i : ℕ) (b : PriceBar)
    (hi lo cl : ℚ) (hb : bars[i]? = some b)
    (hAgg : dailyAgg bars b.day = some (hi, lo, cl)) :
    fibLevelsAppliedAt bars i =
      some (lo + (hi - lo) * (382/1000), lo + (hi - lo) * (618/1000)) := by
  unfold fibLevelsAppliedAt dailyFibLevels
  rw [hb]
  dsimp only
  rw [hAgg]

/-- Witness for `fib_levels_full_day`: the first bar of the concrete day
receives levels built from the full-day high 20 and low 5. -/
theorem fib_levels_full_day_witness :
    fibLevelsAppliedAt barsDayHighLate 0 =
      some (5 + (20 - 5) * (382/1000), 5 + (20 - 5) * (618/1000)) :=
  fib_levels_full_day barsDayHighLate 0 ⟨0, 0, 10, 5, 7⟩ 20 5 8
    (by decide) (by decide)

/-! ## Claim C8 — drawdown halting of the safety monitor -/

/-- Effect of one equity-only update on a monitor with an empty trade log:
the equity is appended, the log stays empty, and trading becomes disabled
exactly when it already was or the new curve (of length ≥ 2) breaches the
drawdown limit. Shared helper. -/
theorem updateMonitor_equity_only (M : SafetyMonitor) (e : ℚ)
    (hlog : M.tradeLog = []) :
    (updateMonitor M e none).equityCurve = M.equityCurve ++ [e] ∧
    (updateMonitor M e none).tradeLog = [] ∧
    (updateMonitor M e none).maxDrawdownPct = M.maxDrawdownPct ∧
    ((updateMonitor M e none).tradingEnabled = false ↔
      (M.tradingEnabled = false ∨
        (2 ≤ (M.equityCurve ++ [e]).length ∧
          currentDrawdownPct (M.equityCurve ++ [e]) < -M.maxDrawdownPct))) := by
  unfold updateMonitor checkDailyLoss checkDrawdown checkPerfDegradation
  simp only [hlog, List.append_nil, Option.toList_none]
  split_ifs <;> simp_all <;> omega

/-- State of the monitor after a run of equity-only updates: the curve is
the update sequence, the log stays empty, and trading is disabled exactly
when some prefix of at least two equities ends below the drawdown limit.
Shared helper. -/
theorem runEquity_state (mdl mdd : ℚ) (eqs : List ℚ) :
    (runEquityUpdates (initMonitor mdl mdd) eqs).equityCurve = eqs ∧
    (runEquityUpdates (initMonitor mdl mdd) eqs).tradeLog = [] ∧
    (runEquityUpdates (initMonitor mdl mdd) eqs).maxDrawdownPct = mdd ∧
    ((runEquityUpdates (initMonitor mdl mdd) eqs).tradingEnabled = false ↔
      ∃ k, 2 ≤ k ∧ k ≤ eqs.length ∧ currentDrawdownPct (eqs.take k) < -mdd) := by
  induction eqs using List.reverseRecOn with
  | nil =>
    refine ⟨rfl, rfl, rfl, ?_⟩
    simp only [runEquityUpdates, List.foldl_nil, initMonitor]
    constructor
    · intro h
      exact absurd h (by simp)
    · rintro ⟨k, hk2, hk0, -⟩
      simp at hk0
      omega
  | append_singleton l e ih =>
    obtain ⟨hc, hl, hm, hen⟩ := ih
    have hstep : runEquityUpdates (initMonitor mdl mdd) (l ++ [e]) =
        updateMonitor (runEquityUpdates (initMonitor mdl mdd) l) e none := by
      unfold runEquityUpdates
      rw [List.foldl_append]
      rfl
    obtain ⟨uc, ul, um, uen⟩ :=
      updateMonitor_equity_only (runEquityUpdates (initMonitor mdl mdd) l) e hl
    rw [hstep]
    refine ⟨by rw [uc, hc], ul, by rw [um, hm], ?_⟩
    rw [uen, hen, hc, hm]
    constructor
    · rintro (⟨k, hk2, hkl, hdd⟩ | ⟨hlen, hdd⟩)
      · exact ⟨k, hk2, by simp; omega, by rwa [List.take_append_of_le_length hkl]⟩
      · refine ⟨(l ++ [e]).length, by simpa using hlen, le_refl _, ?_⟩
        rwa [List.take_length]
    · rintro ⟨k, hk2, hkl, hdd⟩
      by_cases hkle : k ≤ l.length
      · exact Or.inl ⟨k, hk2, hkle, by rwa [List.take_append_of_le_length hkle] at hdd⟩
      · have hkeq : k = (l ++ [e]).length := by simp at hkl ⊢; omega
        have hkeqn : k = l.length + 1 := by simpa using hkeq
        refine Or.inr ⟨by simp; omega, ?_⟩
        rw [hkeq, List.take_length] at hdd
        exact hdd

/-- Claim C8: under equity-only updates trading is halted (can_trade false)
exactly when some prefix of the equity curve breaches the drawdown limit —
i.e. its last drawdown percentage `(last − running max)/running max · 100`
falls below `−max_drawdown_pct`; and concretely, equity 1000 then 940 gives
drawdown −6%, which with `max_drawdown_pct = 5` halts trading. -/
theorem safety_drawdown_halt (mdl mdd : ℚ) (eqs : List ℚ) :
    (canTrade (runEquityUpdates (initMonitor mdl mdd) eqs) = false ↔
      ∃ k, 2 ≤ k ∧ k ≤ eqs.length ∧ currentDrawdownPct (eqs.take k) < -mdd) ∧
    currentDrawdownPct [(1000 : ℚ), 940] = -6 ∧
    canTrade (runEquityUpdates (initMonitor 5 5) [(1000 : ℚ), 940]) = false := by
  have hdd : currentDrawdownPct [(1000 : ℚ), 940] = -6 := by
    unfold currentDrawdownPct lastEquity runMaxLast
    norm_num [max_eq_left]
  refine ⟨(runEquity_state mdl mdd eqs).2.2.2, hdd, ?_⟩
  exact (runEquity_state 5 5 [1000, 940]).2.2.2.mpr
    ⟨2, by norm_num, by norm_num,
      by rw [show List.take 2 [(1000 : ℚ), 940] = [(1000 : ℚ), 940] from rfl, hdd]; norm_num⟩

end OBot
